import Mathlib

/-!
Verification of the password-game requirement generator and password
validator, embedded from `src/pw.c` (functions `generate_requirements`,
`validate_password`) and the browser re-implementation
(`generateRequirements`, `validatePassword`, `isSymbol`).

Characters are modelled as natural-number character codes; a password is
a `List Nat`.  C `int` fields of the requirements record are modelled as
`Nat` (the spec declares them all as integers ≥ 0, and the generator
only ever produces non-negative values).
-/

set_option maxHeartbeats 1600000
set_option linter.unnecessarySeqFocus false
set_option linter.unusedTactic false
set_option linter.unreachableTactic false

namespace PwGame

/-- The `PasswordRequirements` struct of pw.c (identical field-for-field
to the requirements object of the JS front end, which uses camelCase). -/
structure PasswordRequirements where
  min_length : Nat
  min_uppercase : Nat
  min_lowercase : Nat
  min_digits : Nat
  min_symbols : Nat
  req_start_upper_end_symbol : Bool
  req_no_consecutive_chars : Bool
  req_palindrome : Bool
  req_digit_sum : Bool
  digit_sum_target : Nat
deriving DecidableEq, Repr

/-- `BASE_MIN_LEN` from pw.c. -/
def BASE_MIN_LEN : Nat := 6

/-- The initial assignment `reqs->min_length = BASE_MIN_LEN + round + (round / 2)`
(pw.c line 162), before any clamping. -/
def initial_min_length (round : Nat) : Nat :=
  BASE_MIN_LEN + round + round / 2

/-- `generate_requirements` from pw.c (the JS `generateRequirements` is the
same derivation).  The sequential mutations of the C function are expressed
as a chain of shadowing `let` bindings in source order.  The random draw
`rand() % (round * 2 + 1)` (JS: `Math.floor(Math.random() * (round*2+1))`)
is modelled by `rnd % (round * 2 + 1)` for an arbitrary draw `rnd` from the
random source. -/
def generate_requirements (round : Nat) (rnd : Nat) : PasswordRequirements :=
  let min_length := initial_min_length round
  let min_uppercase := 1 + round / 2
  let min_lowercase := 1 + round / 2
  let min_digits := 1 + round / 3
  let min_symbols := if round > 1 then 1 + (round - 1) / 3 else 0
  let min_char_sum := min_uppercase + min_lowercase + min_digits + min_symbols
  let min_length := if min_length < min_char_sum then min_char_sum else min_length
  let req_start_upper_end_symbol := decide (round ≥ 3)
  let min_length := if round ≥ 3 ∧ min_length < 2 then 2 else min_length
  let min_uppercase := if round ≥ 3 ∧ min_uppercase < 1 then 1 else min_uppercase
  let min_symbols := if round ≥ 3 ∧ min_symbols < 1 then 1 else min_symbols
  let req_no_consecutive_chars := decide (round ≥ 4)
  let req_palindrome := decide (round = 5)
  let req_digit_sum := decide (round ≥ 7)
  let min_digits := if round ≥ 7 ∧ min_digits < 1 then 1 else min_digits
  let digit_sum_target := if round ≥ 7 then 5 + round / 2 + rnd % (round * 2 + 1) else 0
  let min_char_sum := min_uppercase + min_lowercase + min_digits + min_symbols
  let min_length := if min_length < min_char_sum then min_char_sum else min_length
  { min_length, min_uppercase, min_lowercase, min_digits, min_symbols,
    req_start_upper_end_symbol, req_no_consecutive_chars, req_palindrome,
    req_digit_sum, digit_sum_target }

/-- `isupper` of ctype.h in the C locale, on a character code. -/
def c_isupper (c : Nat) : Bool := decide (65 ≤ c ∧ c ≤ 90)

/-- `islower` of ctype.h in the C locale. -/
def c_islower (c : Nat) : Bool := decide (97 ≤ c ∧ c ≤ 122)

/-- `isdigit` of ctype.h. -/
def c_isdigit (c : Nat) : Bool := decide (48 ≤ c ∧ c ≤ 57)

/-- `isspace` of ctype.h in the C locale: space and the control characters
tab, newline, vertical tab, form feed, carriage return. -/
def c_isspace (c : Nat) : Bool := decide (c = 32 ∨ (9 ≤ c ∧ c ≤ 13))

/-- `ispunct` of ctype.h in the C locale: a printable character that is
neither alphanumeric nor the space character. -/
def c_ispunct (c : Nat) : Bool :=
  decide ((33 ≤ c ∧ c ≤ 47) ∨ (58 ≤ c ∧ c ≤ 64) ∨ (91 ≤ c ∧ c ≤ 96) ∨
    (123 ≤ c ∧ c ≤ 126))

/-- The character set matched by the JavaScript regular-expression class
`\s`: ASCII whitespace, NBSP, and the further Unicode space separators,
line/paragraph separators and the BOM. -/
def js_isWhitespace (c : Nat) : Bool :=
  decide (c = 9 ∨ c = 10 ∨ c = 11 ∨ c = 12 ∨ c = 13 ∨ c = 32 ∨ c = 160 ∨
    c = 5760 ∨ (8192 ≤ c ∧ c ≤ 8202) ∨ c = 8232 ∨ c = 8233 ∨ c = 8239 ∨
    c = 8287 ∨ c = 12288 ∨ c = 65279)

/-- `isSymbol` of the JS front end: `!/[a-zA-Z0-9\s]/.test(char)` —
any character that is not a letter, digit or whitespace. -/
def isSymbol (c : Nat) : Bool :=
  !(c_isupper c || c_islower c || c_isdigit c || js_isWhitespace c)

/-- The four-class character classification in the words of the spec
(§4.2 and the glossary): a symbol is any character that is none of
uppercase letter, lowercase letter, decimal digit, or whitespace.  A
second, spec-side definition kept for comparison with the code's
`c_ispunct` / `isSymbol`. -/
def spec_isSymbol (c : Nat) : Bool :=
  !(c_isupper c || c_islower c || c_isdigit c || c_isspace c)

/-- The per-class tallies accumulated by the counting loop of
`validate_password` / `validatePassword`. -/
structure CharCounts where
  upper : Nat
  lower : Nat
  digit : Nat
  symbol : Nat
  digitSum : Nat
deriving DecidableEq, Repr

/-- One step of the counting loop of `validate_password` (pw.c lines
359–370): the if/else-if chain classifying one character. -/
def c_tally (acc : CharCounts) (c : Nat) : CharCounts :=
  if c_isupper c then { acc with upper := acc.upper + 1 }
  else if c_islower c then { acc with lower := acc.lower + 1 }
  else if c_isdigit c then
    { acc with digit := acc.digit + 1, digitSum := acc.digitSum + (c - 48) }
  else if c_ispunct c then { acc with symbol := acc.symbol + 1 }
  else acc

/-- The counting loop of `validate_password`. -/
def c_counts (password : List Nat) : CharCounts :=
  password.foldl c_tally ⟨0, 0, 0, 0, 0⟩

/-- One step of the counting loop of the JS `validatePassword`: identical
to the C chain except that the symbol branch tests `isSymbol` instead of
`ispunct`. -/
def js_tally (acc : CharCounts) (c : Nat) : CharCounts :=
  if c_isupper c then { acc with upper := acc.upper + 1 }
  else if c_islower c then { acc with lower := acc.lower + 1 }
  else if c_isdigit c then
    { acc with digit := acc.digit + 1, digitSum := acc.digitSum + (c - 48) }
  else if isSymbol c then { acc with symbol := acc.symbol + 1 }
  else acc

/-- The counting loop of the JS `validatePassword`. -/
def js_counts (password : List Nat) : CharCounts :=
  password.foldl js_tally ⟨0, 0, 0, 0, 0⟩

/-- One counting step under the spec's classification: like the code's
tallies, with the symbol branch given by `spec_isSymbol`. -/
def spec_tally (acc : CharCounts) (c : Nat) : CharCounts :=
  if c_isupper c then { acc with upper := acc.upper + 1 }
  else if c_islower c then { acc with lower := acc.lower + 1 }
  else if c_isdigit c then
    { acc with digit := acc.digit + 1, digitSum := acc.digitSum + (c - 48) }
  else if spec_isSymbol c then { acc with symbol := acc.symbol + 1 }
  else acc

/-- Counting a whole password under the spec's classification. -/
def spec_counts (password : List Nat) : CharCounts :=
  password.foldl spec_tally ⟨0, 0, 0, 0, 0⟩

/-- The reasons a password can be rejected, one per distinct failure
message of `validate_password` (the JS messages correspond one-to-one). -/
inductive FailReason where
  | tooShort
  | notEnoughUpper
  | notEnoughLower
  | notEnoughDigits
  | notEnoughSymbols
  | emptyStartEnd
  | noStartUpper
  | noEndSymbol
  | consecutiveChars
  | notPalindrome
  | digitSumMismatch
  | impossibleDigitSum
deriving DecidableEq, Repr

/-- The result of validating one password: pass, or fail with the first
violated rule. -/
inductive Verdict where
  | valid
  | invalid (reason : FailReason)
deriving DecidableEq, Repr

/-- The consecutive-identical-characters scan of `validate_password`
(pw.c lines 410–415) and `validatePassword`: is there an index `i` with
`password[i] == password[i + 1]`? -/
def hasConsecutive (password : List Nat) : Bool :=
  (List.range (password.length - 1)).any fun i =>
    password.getD i 0 == password.getD (i + 1) 0

/-- The palindrome half-scan of `validate_password` (pw.c lines 420–426):
compare `password[i]` with `password[len - 1 - i]` for all `i < len / 2`. -/
def c_isPalindrome (password : List Nat) : Bool :=
  (List.range (password.length / 2)).all fun i =>
    password.getD i 0 == password.getD (password.length - 1 - i) 0

/-- `validate_password` from pw.c.  The C control flow — early `return 0`
with a printed reason at the first failing check — is expressed as a chain
of guarded conditions in source order; a block like
`if (flag) { if (a) return r; ... }` is flattened into guards `flag && a`.
Indexing `password[0]` and `password[len - 1]` is modelled with `getD`
(the in-bounds reads the C code performs; see
`validate_password_checked` for the access-safety refinement). -/
def validate_password (password : List Nat) (reqs : PasswordRequirements) : Verdict :=
  let len := password.length
  if len < reqs.min_length then .invalid .tooShort else
  let c := c_counts password
  if c.upper < reqs.min_uppercase then .invalid .notEnoughUpper else
  if c.lower < reqs.min_lowercase then .invalid .notEnoughLower else
  if c.digit < reqs.min_digits then .invalid .notEnoughDigits else
  if c.symbol < reqs.min_symbols then .invalid .notEnoughSymbols else
  if reqs.req_start_upper_end_symbol && len == 0 then .invalid .emptyStartEnd else
  if reqs.req_start_upper_end_symbol && !c_isupper (password.getD 0 0) then
    .invalid .noStartUpper else
  if reqs.req_start_upper_end_symbol && !c_ispunct (password.getD (len - 1) 0) then
    .invalid .noEndSymbol else
  if reqs.req_no_consecutive_chars && hasConsecutive password then
    .invalid .consecutiveChars else
  if reqs.req_palindrome && !c_isPalindrome password then
    .invalid .notPalindrome else
  if reqs.req_digit_sum && c.digitSum != reqs.digit_sum_target then
    .invalid .digitSumMismatch else
  if reqs.req_digit_sum && reqs.min_digits == 0 && reqs.digit_sum_target != 0 then
    .invalid .impossibleDigitSum else
  .valid

/-- `validatePassword` from the JS front end.  Identical check order and
early-return structure; the differences from the C version are the symbol
classification (`isSymbol` instead of `ispunct`, both in the counting loop
and in the end-with-symbol test) and the palindrome test (comparison with
the reversed string instead of an index half-scan). -/
def validatePassword (password : List Nat) (reqs : PasswordRequirements) : Verdict :=
  let len := password.length
  if len < reqs.min_length then .invalid .tooShort else
  let c := js_counts password
  if c.upper < reqs.min_uppercase then .invalid .notEnoughUpper else
  if c.lower < reqs.min_lowercase then .invalid .notEnoughLower else
  if c.digit < reqs.min_digits then .invalid .notEnoughDigits else
  if c.symbol < reqs.min_symbols then .invalid .notEnoughSymbols else
  if reqs.req_start_upper_end_symbol && len == 0 then .invalid .emptyStartEnd else
  if reqs.req_start_upper_end_symbol && !c_isupper (password.getD 0 0) then
    .invalid .noStartUpper else
  if reqs.req_start_upper_end_symbol && !isSymbol (password.getD (len - 1) 0) then
    .invalid .noEndSymbol else
  if reqs.req_no_consecutive_chars && hasConsecutive password then
    .invalid .consecutiveChars else
  if reqs.req_palindrome && !(password == password.reverse) then
    .invalid .notPalindrome else
  if reqs.req_digit_sum && c.digitSum != reqs.digit_sum_target then
    .invalid .digitSumMismatch else
  if reqs.req_digit_sum && reqs.min_digits == 0 && reqs.digit_sum_target != 0 then
    .invalid .impossibleDigitSum else
  .valid

/-! The nine checks of spec §4.2, each returning `none` (pass) or
`some reason` (the reported failure), in the spec's fixed order.  The
bodies are those of the corresponding blocks of `validate_password`. -/

/-- Check 1 of §4.2: minimum length. -/
def lengthCheck (password : List Nat) (reqs : PasswordRequirements) : Option FailReason :=
  if password.length < reqs.min_length then some .tooShort else none

/-- Check 2 of §4.2: minimum uppercase count. -/
def upperCountCheck (password : List Nat) (reqs : PasswordRequirements) : Option FailReason :=
  if (c_counts password).upper < reqs.min_uppercase then some .notEnoughUpper else none

/-- Check 3 of §4.2: minimum lowercase count. -/
def lowerCountCheck (password : List Nat) (reqs : PasswordRequirements) : Option FailReason :=
  if (c_counts password).lower < reqs.min_lowercase then some .notEnoughLower else none

/-- Check 4 of §4.2: minimum digit count. -/
def digitCountCheck (password : List Nat) (reqs : PasswordRequirements) : Option FailReason :=
  if (c_counts password).digit < reqs.min_digits then some .notEnoughDigits else none

/-- Check 5 of §4.2: minimum symbol count. -/
def symbolCountCheck (password : List Nat) (reqs : PasswordRequirements) : Option FailReason :=
  if (c_counts password).symbol < reqs.min_symbols then some .notEnoughSymbols else none

/-- Check 6 of §4.2: start with uppercase, end with symbol (with the
defensive empty-password case first). -/
def startEndCheck (password : List Nat) (reqs : PasswordRequirements) : Option FailReason :=
  if reqs.req_start_upper_end_symbol && password.length == 0 then some .emptyStartEnd
  else if reqs.req_start_upper_end_symbol && !c_isupper (password.getD 0 0) then
    some .noStartUpper
  else if reqs.req_start_upper_end_symbol &&
      !c_ispunct (password.getD (password.length - 1) 0) then some .noEndSymbol
  else none

/-- Check 7 of §4.2: no consecutive identical characters. -/
def consecutiveCheck (password : List Nat) (reqs : PasswordRequirements) : Option FailReason :=
  if reqs.req_no_consecutive_chars && hasConsecutive password then
    some .consecutiveChars
  else none

/-- Check 8 of §4.2: palindrome. -/
def palindromeCheck (password : List Nat) (reqs : PasswordRequirements) : Option FailReason :=
  if reqs.req_palindrome && !c_isPalindrome password then some .notPalindrome
  else none

/-- Check 9 of §4.2: exact digit sum, with the code's internal order —
the mismatch test first, then the defensive impossible-configuration
cross-check. -/
def digitSumCheck (password : List Nat) (reqs : PasswordRequirements) : Option FailReason :=
  if reqs.req_digit_sum && (c_counts password).digitSum != reqs.digit_sum_target then
    some .digitSumMismatch
  else if reqs.req_digit_sum && reqs.min_digits == 0 && reqs.digit_sum_target != 0 then
    some .impossibleDigitSum
  else none

/-- The nine checks in the fixed order of spec §4.2. -/
def orderedChecks (password : List Nat) (reqs : PasswordRequirements) :
    List (Option FailReason) :=
  [lengthCheck password reqs, upperCountCheck password reqs,
   lowerCountCheck password reqs, digitCountCheck password reqs,
   symbolCountCheck password reqs, startEndCheck password reqs,
   consecutiveCheck password reqs, palindromeCheck password reqs,
   digitSumCheck password reqs]

/-- Short-circuit evaluation of a list of checks: the verdict is the first
`some reason`, or `valid` if every check passes. -/
def firstFailure : List (Option FailReason) → Verdict
  | [] => .valid
  | none :: rest => firstFailure rest
  | some r :: _ => .invalid r

/-! The corresponding checks of the JS `validatePassword`, for the
equivalence claim: checks 1 and 7 are shared with the C version verbatim;
the count checks use `js_counts`, the start/end check uses `isSymbol`, the
palindrome check compares with the reversed list. -/

/-- JS check 2: minimum uppercase count over `js_counts`. -/
def js_upperCountCheck (password : List Nat) (reqs : PasswordRequirements) : Option FailReason :=
  if (js_counts password).upper < reqs.min_uppercase then some .notEnoughUpper else none

/-- JS check 3: minimum lowercase count over `js_counts`. -/
def js_lowerCountCheck (password : List Nat) (reqs : PasswordRequirements) : Option FailReason :=
  if (js_counts password).lower < reqs.min_lowercase then some .notEnoughLower else none

/-- JS check 4: minimum digit count over `js_counts`. -/
def js_digitCountCheck (password : List Nat) (reqs : PasswordRequirements) : Option FailReason :=
  if (js_counts password).digit < reqs.min_digits then some .notEnoughDigits else none

/-- JS check 5: minimum symbol count over `js_counts`. -/
def js_symbolCountCheck (password : List Nat) (reqs : PasswordRequirements) : Option FailReason :=
  if (js_counts password).symbol < reqs.min_symbols then some .notEnoughSymbols else none

/-- JS check 6: start with uppercase, end with `isSymbol`. -/
def js_startEndCheck (password : List Nat) (reqs : PasswordRequirements) : Option FailReason :=
  if reqs.req_start_upper_end_symbol && password.length == 0 then some .emptyStartEnd
  else if reqs.req_start_upper_end_symbol && !c_isupper (password.getD 0 0) then
    some .noStartUpper
  else if reqs.req_start_upper_end_symbol &&
      !isSymbol (password.getD (password.length - 1) 0) then some .noEndSymbol
  else none

/-- JS check 8: palindrome via comparison with the reversed string. -/
def js_palindromeCheck (password : List Nat) (reqs : PasswordRequirements) : Option FailReason :=
  if reqs.req_palindrome && !(password == password.reverse) then some .notPalindrome
  else none

/-- JS check 9: exact digit sum over `js_counts`, same internal order as C. -/
def js_digitSumCheck (password : List Nat) (reqs : PasswordRequirements) : Option FailReason :=
  if reqs.req_digit_sum && (js_counts password).digitSum != reqs.digit_sum_target then
    some .digitSumMismatch
  else if reqs.req_digit_sum && reqs.min_digits == 0 && reqs.digit_sum_target != 0 then
    some .impossibleDigitSum
  else none

/-- The nine checks of the JS validator in the same fixed order. -/
def jsOrderedChecks (password : List Nat) (reqs : PasswordRequirements) :
    List (Option FailReason) :=
  [lengthCheck password reqs, js_upperCountCheck password reqs,
   js_lowerCountCheck password reqs, js_digitCountCheck password reqs,
   js_symbolCountCheck password reqs, js_startEndCheck password reqs,
   consecutiveCheck password reqs, js_palindromeCheck password reqs,
   js_digitSumCheck password reqs]

/-! Access-checked refinement of `validate_password`: every memory read
the C code performs through a computed index is modelled with `l[i]?`, so
an out-of-bounds read surfaces as `none` ("crash") instead of a default
value.  Counting and comparisons read no indexed memory and cannot
crash. -/

/-- Early-exit disjunction over a list with a fallible body: `none`
("crash") propagates, `some true` stops the scan. -/
def optionAny (f : Nat → Option Bool) : List Nat → Option Bool
  | [] => some false
  | x :: t =>
    match f x with
    | none => none
    | some true => some true
    | some false => optionAny f t

/-- Early-exit conjunction over a list with a fallible body: `none`
("crash") propagates, `some false` stops the scan. -/
def optionAll (f : Nat → Option Bool) : List Nat → Option Bool
  | [] => some true
  | x :: t =>
    match f x with
    | none => none
    | some false => some false
    | some true => optionAll f t

/-- The consecutive scan with checked reads of `password[i]` and
`password[i + 1]`. -/
def checked_hasConsecutive (password : List Nat) : Option Bool :=
  optionAny
    (fun i =>
      match password[i]?, password[i + 1]? with
      | some a, some b => some (a == b)
      | _, _ => none)
    (List.range (password.length - 1))

/-- The palindrome half-scan with checked reads of `password[i]` and
`password[len - 1 - i]`. -/
def checked_isPalindrome (password : List Nat) : Option Bool :=
  optionAll
    (fun i =>
      match password[i]?, password[password.length - 1 - i]? with
      | some a, some b => some (a == b)
      | _, _ => none)
    (List.range (password.length / 2))

/-- The start/end check with checked reads of `password[0]` and
`password[len - 1]` behind the C code's `len == 0` guard. -/
def checked_startEndCheck (password : List Nat) (reqs : PasswordRequirements) :
    Option (Option FailReason) :=
  if !reqs.req_start_upper_end_symbol then some none
  else if password.length == 0 then some (some .emptyStartEnd)
  else
    match password[0]?, password[password.length - 1]? with
    | some c0, some cl =>
      some (if !c_isupper c0 then some .noStartUpper
            else if !c_ispunct cl then some .noEndSymbol
            else none)
    | _, _ => none

/-- The consecutive check with checked reads. -/
def checked_consecutiveCheck (password : List Nat) (reqs : PasswordRequirements) :
    Option (Option FailReason) :=
  if reqs.req_no_consecutive_chars then
    match checked_hasConsecutive password with
    | some b => some (if b then some .consecutiveChars else none)
    | none => none
  else some none

/-- The palindrome check with checked reads. -/
def checked_palindromeCheck (password : List Nat) (reqs : PasswordRequirements) :
    Option (Option FailReason) :=
  if reqs.req_palindrome then
    match checked_isPalindrome password with
    | some b => some (if !b then some .notPalindrome else none)
    | none => none
  else some none

/-- The nine checks with access checking: `none` marks a check that
performed an out-of-bounds read; the checks that read no indexed memory
are wrapped in `some`. -/
def checkedChecks (password : List Nat) (reqs : PasswordRequirements) :
    List (Option (Option FailReason)) :=
  [some (lengthCheck password reqs), some (upperCountCheck password reqs),
   some (lowerCountCheck password reqs), some (digitCountCheck password reqs),
   some (symbolCountCheck password reqs), checked_startEndCheck password reqs,
   checked_consecutiveCheck password reqs, checked_palindromeCheck password reqs,
   some (digitSumCheck password reqs)]

/-- Sequential evaluation of access-checked checks with the early-return
control flow of the C code: a crash in the first check that is actually
reached propagates; a failing check stops evaluation. -/
def seqChecked : List (Option (Option FailReason)) → Option Verdict
  | [] => some .valid
  | none :: _ => none
  | some (some r) :: _ => some (.invalid r)
  | some none :: rest => seqChecked rest

/-- `validate_password` with every indexed memory read access-checked:
returns `none` if the code as written would read out of bounds. -/
def validate_password_checked (password : List Nat) (reqs : PasswordRequirements) :
    Option Verdict :=
  seqChecked (checkedChecks password reqs)

/-! ### The validators evaluate the §4.2 checks in order, first failure wins -/

/-- `validate_password` is exactly the short-circuit evaluation of the
nine §4.2 checks in their fixed order. -/
theorem validate_password_eq_checks (password : List Nat) (reqs : PasswordRequirements) :
    validate_password password reqs = firstFailure (orderedChecks password reqs) := by
  simp only [validate_password, orderedChecks, lengthCheck, upperCountCheck,
    lowerCountCheck, digitCountCheck, symbolCountCheck, startEndCheck,
    consecutiveCheck, palindromeCheck, digitSumCheck]
  by_cases h1 : password.length < reqs.min_length
  · rw [if_pos h1, if_pos h1]; rfl
  rw [if_neg h1, if_neg h1]
  by_cases h2 : (c_counts password).upper < reqs.min_uppercase
  · rw [if_pos h2, if_pos h2]; rfl
  rw [if_neg h2, if_neg h2]
  by_cases h3 : (c_counts password).lower < reqs.min_lowercase
  · rw [if_pos h3, if_pos h3]; rfl
  rw [if_neg h3, if_neg h3]
  by_cases h4 : (c_counts password).digit < reqs.min_digits
  · rw [if_pos h4, if_pos h4]; rfl
  rw [if_neg h4, if_neg h4]
  by_cases h5 : (c_counts password).symbol < reqs.min_symbols
  · rw [if_pos h5, if_pos h5]; rfl
  rw [if_neg h5, if_neg h5]
  by_cases h6 : (reqs.req_start_upper_end_symbol && password.length == 0) = true
  · rw [if_pos h6, if_pos h6]; rfl
  rw [if_neg h6, if_neg h6]
  by_cases h7 : (reqs.req_start_upper_end_symbol &&
      !c_isupper (password.getD 0 0)) = true
  · rw [if_pos h7, if_pos h7]; rfl
  rw [if_neg h7, if_neg h7]
  by_cases h8 : (reqs.req_start_upper_end_symbol &&
      !c_ispunct (password.getD (password.length - 1) 0)) = true
  · rw [if_pos h8, if_pos h8]; rfl
  rw [if_neg h8, if_neg h8]
  by_cases h9 : (reqs.req_no_consecutive_chars && hasConsecutive password) = true
  · rw [if_pos h9, if_pos h9]; rfl
  rw [if_neg h9, if_neg h9]
  by_cases h10 : (reqs.req_palindrome && !c_isPalindrome password) = true
  · rw [if_pos h10, if_pos h10]; rfl
  rw [if_neg h10, if_neg h10]
  by_cases h11 : (reqs.req_digit_sum &&
      (c_counts password).digitSum != reqs.digit_sum_target) = true
  · rw [if_pos h11, if_pos h11]; rfl
  rw [if_neg h11, if_neg h11]
  by_cases h12 : (reqs.req_digit_sum && reqs.min_digits == 0 &&
      reqs.digit_sum_target != 0) = true
  · rw [if_pos h12, if_pos h12]; rfl
  rw [if_neg h12, if_neg h12]
  rfl

/-- The JS `validatePassword` is likewise the short-circuit evaluation of
its nine checks in the same fixed order. -/
theorem validatePassword_eq_checks (password : List Nat) (reqs : PasswordRequirements) :
    validatePassword password reqs = firstFailure (jsOrderedChecks password reqs) := by
  simp only [validatePassword, jsOrderedChecks, lengthCheck, js_upperCountCheck,
    js_lowerCountCheck, js_digitCountCheck, js_symbolCountCheck, js_startEndCheck,
    consecutiveCheck, js_palindromeCheck, js_digitSumCheck]
  by_cases h1 : password.length < reqs.min_length
  · rw [if_pos h1, if_pos h1]; rfl
  rw [if_neg h1, if_neg h1]
  by_cases h2 : (js_counts password).upper < reqs.min_uppercase
  · rw [if_pos h2, if_pos h2]; rfl
  rw [if_neg h2, if_neg h2]
  by_cases h3 : (js_counts password).lower < reqs.min_lowercase
  · rw [if_pos h3, if_pos h3]; rfl
  rw [if_neg h3, if_neg h3]
  by_cases h4 : (js_counts password).digit < reqs.min_digits
  · rw [if_pos h4, if_pos h4]; rfl
  rw [if_neg h4, if_neg h4]
  by_cases h5 : (js_counts password).symbol < reqs.min_symbols
  · rw [if_pos h5, if_pos h5]; rfl
  rw [if_neg h5, if_neg h5]
  by_cases h6 : (reqs.req_start_upper_end_symbol && password.length == 0) = true
  · rw [if_pos h6, if_pos h6]; rfl
  rw [if_neg h6, if_neg h6]
  by_cases h7 : (reqs.req_start_upper_end_symbol &&
      !c_isupper (password.getD 0 0)) = true
  · rw [if_pos h7, if_pos h7]; rfl
  rw [if_neg h7, if_neg h7]
  by_cases h8 : (reqs.req_start_upper_end_symbol &&
      !isSymbol (password.getD (password.length - 1) 0)) = true
  · rw [if_pos h8, if_pos h8]; rfl
  rw [if_neg h8, if_neg h8]
  by_cases h9 : (reqs.req_no_consecutive_chars && hasConsecutive password) = true
  · rw [if_pos h9, if_pos h9]; rfl
  rw [if_neg h9, if_neg h9]
  by_cases h10 : (reqs.req_palindrome && !(password == password.reverse)) = true
  · rw [if_pos h10, if_pos h10]; rfl
  rw [if_neg h10, if_neg h10]
  by_cases h11 : (reqs.req_digit_sum &&
      (js_counts password).digitSum != reqs.digit_sum_target) = true
  · rw [if_pos h11, if_pos h11]; rfl
  rw [if_neg h11, if_neg h11]
  by_cases h12 : (reqs.req_digit_sum && reqs.min_digits == 0 &&
      reqs.digit_sum_target != 0) = true
  · rw [if_pos h12, if_pos h12]; rfl
  rw [if_neg h12, if_neg h12]
  rfl

/-- A check list evaluates to `valid` exactly when every check passes. -/
theorem firstFailure_eq_valid_iff (l : List (Option FailReason)) :
    firstFailure l = .valid ↔ ∀ o ∈ l, o = none := by
  induction l with
  | nil => simp [firstFailure]
  | cons o rest ih =>
    cases o with
    | none => simp [firstFailure, ih]
    | some r => simp [firstFailure]

/-- If a check list evaluates to a failure, some check reported exactly
that reason. -/
theorem firstFailure_invalid_mem (l : List (Option FailReason)) (r : FailReason)
    (h : firstFailure l = .invalid r) : some r ∈ l := by
  induction l with
  | nil => simp [firstFailure] at h
  | cons o rest ih =>
    cases o with
    | none =>
      simp only [firstFailure] at h
      exact List.mem_cons_of_mem _ (ih h)
    | some s =>
      simp only [firstFailure, Verdict.invalid.injEq] at h
      subst h
      exact List.mem_cons_self _ _

/-- One step of first-failure evaluation. -/
theorem firstFailure_invalid_cons (o : Option FailReason)
    (l : List (Option FailReason)) (r : FailReason)
    (h : firstFailure (o :: l) = .invalid r) :
    o = some r ∨ (o = none ∧ firstFailure l = .invalid r) := by
  cases o with
  | none => exact Or.inr ⟨rfl, h⟩
  | some s =>
    simp only [firstFailure, Verdict.invalid.injEq] at h
    subst h
    exact Or.inl rfl

/-- Sequencing a crash-free check list is the `some` of its first
failure. -/
theorem seqChecked_map_some (l : List (Option FailReason)) :
    seqChecked (l.map some) = some (firstFailure l) := by
  induction l with
  | nil => rfl
  | cons o rest ih =>
    cases o with
    | none => simpa [seqChecked, firstFailure] using ih
    | some r => rfl

/-! ### Generator properties -/

/-- Claim C3: for every round ≥ 1 and every random draw, the generated
requirements satisfy invariant I1 (`min_length` is at least the sum of the
four per-class minimums), invariant I2 (if `req_start_upper_end_symbol` is
set — which happens exactly from round 3 on — then `min_uppercase ≥ 1`,
`min_symbols ≥ 1` and `min_length ≥ 2`), and invariant I3 (if
`req_digit_sum` is set — exactly from round 7 on — then `min_digits ≥ 1`). -/
theorem generate_invariants (round rnd : Nat) (h : 1 ≤ round) :
    (generate_requirements round rnd).min_uppercase +
      (generate_requirements round rnd).min_lowercase +
      (generate_requirements round rnd).min_digits +
      (generate_requirements round rnd).min_symbols ≤
      (generate_requirements round rnd).min_length ∧
    ((generate_requirements round rnd).req_start_upper_end_symbol = true →
      1 ≤ (generate_requirements round rnd).min_uppercase ∧
      1 ≤ (generate_requirements round rnd).min_symbols ∧
      2 ≤ (generate_requirements round rnd).min_length) ∧
    ((generate_requirements round rnd).req_digit_sum = true →
      1 ≤ (generate_requirements round rnd).min_digits) := by
  simp only [generate_requirements, initial_min_length, BASE_MIN_LEN,
    decide_eq_true_eq]
  split_ifs <;> simp_all <;> omega

/-- Witness for C3: the invariants at round 7 with random draw 5. -/
theorem generate_invariants_witness :
    1 ≤ 7 ∧
    ((generate_requirements 7 5).min_uppercase +
      (generate_requirements 7 5).min_lowercase +
      (generate_requirements 7 5).min_digits +
      (generate_requirements 7 5).min_symbols ≤
      (generate_requirements 7 5).min_length ∧
    ((generate_requirements 7 5).req_start_upper_end_symbol = true →
      1 ≤ (generate_requirements 7 5).min_uppercase ∧
      1 ≤ (generate_requirements 7 5).min_symbols ∧
      2 ≤ (generate_requirements 7 5).min_length) ∧
    ((generate_requirements 7 5).req_digit_sum = true →
      1 ≤ (generate_requirements 7 5).min_digits)) :=
  ⟨by decide, generate_invariants 7 5 (by decide)⟩

/-- Claim C5: for every round ≥ 1 the basic minimums are derived exactly by
the formulas of pw.c lines 162–166 (`min_length = 6 + round + round/2`
before clamping; the four per-class minimums are never changed afterwards,
so they hold of the final record), and `generate_requirements 1` yields
`min_length = 7`, per-class minimums `1, 1, 1, 0`, all flags false. -/
theorem generate_basic_minima (round rnd : Nat) (h : 1 ≤ round) :
    initial_min_length round = 6 + round + round / 2 ∧
    (generate_requirements round rnd).min_uppercase = 1 + round / 2 ∧
    (generate_requirements round rnd).min_lowercase = 1 + round / 2 ∧
    (generate_requirements round rnd).min_digits = 1 + round / 3 ∧
    (generate_requirements round rnd).min_symbols =
      (if round = 1 then 0 else 1 + (round - 1) / 3) ∧
    generate_requirements 1 rnd = ⟨7, 1, 1, 1, 0, false, false, false, false, 0⟩ := by
  refine ⟨rfl, ?_, ?_, ?_, ?_, ?_⟩ <;>
    simp only [generate_requirements, initial_min_length, BASE_MIN_LEN] <;>
    split_ifs <;> simp_all <;> omega

/-- Witness for C5: the derivation formulas at round 4 with random draw 9. -/
theorem generate_basic_minima_witness :
    1 ≤ 4 ∧
    (initial_min_length 4 = 6 + 4 + 4 / 2 ∧
    (generate_requirements 4 9).min_uppercase = 1 + 4 / 2 ∧
    (generate_requirements 4 9).min_lowercase = 1 + 4 / 2 ∧
    (generate_requirements 4 9).min_digits = 1 + 4 / 3 ∧
    (generate_requirements 4 9).min_symbols =
      (if 4 = 1 then 0 else 1 + (4 - 1) / 3) ∧
    generate_requirements 1 9 = ⟨7, 1, 1, 1, 0, false, false, false, false, 0⟩) :=
  ⟨by decide, generate_basic_minima 4 9 (by decide)⟩

/-- Claim C6: the special-rule flags of the generated requirements are set
exactly at their threshold rounds — `req_start_upper_end_symbol` iff
round ≥ 3, `req_no_consecutive_chars` iff round ≥ 4, `req_digit_sum` iff
round ≥ 7 (each monotone-true from its threshold on), and `req_palindrome`
iff round = 5 exactly. -/
theorem generate_flags (round rnd : Nat) :
    ((generate_requirements round rnd).req_start_upper_end_symbol = true ↔ 3 ≤ round) ∧
    ((generate_requirements round rnd).req_no_consecutive_chars = true ↔ 4 ≤ round) ∧
    ((generate_requirements round rnd).req_digit_sum = true ↔ 7 ≤ round) ∧
    ((generate_requirements round rnd).req_palindrome = true ↔ round = 5) := by
  simp [generate_requirements, decide_eq_true_eq]

/-- Claim C7: for every round ≥ 7 and every random draw, the generated
`digit_sum_target` lies in the inclusive interval
`[5 + round/2, 5 + round/2 + 2*round]`. -/
theorem digit_sum_target_range (round rnd : Nat) (h : 7 ≤ round) :
    5 + round / 2 ≤ (generate_requirements round rnd).digit_sum_target ∧
    (generate_requirements round rnd).digit_sum_target ≤ 5 + round / 2 + 2 * round := by
  have hm : rnd % (round * 2 + 1) < round * 2 + 1 := Nat.mod_lt _ (by omega)
  simp only [generate_requirements, initial_min_length, BASE_MIN_LEN]
  split_ifs <;> omega

/-- Witness for C7: the target bounds at round 8 with random draw 1000. -/
theorem digit_sum_target_range_witness :
    7 ≤ 8 ∧
    (5 + 8 / 2 ≤ (generate_requirements 8 1000).digit_sum_target ∧
    (generate_requirements 8 1000).digit_sum_target ≤ 5 + 8 / 2 + 2 * 8) :=
  ⟨by decide, digit_sum_target_range 8 1000 (by decide)⟩

/-- Every generated `min_length` is at least 7: the base formula gives
`6 + round + round/2 ≥ 7` for round ≥ 1 and every later adjustment only
raises the value. -/
theorem generate_min_length_ge (round rnd : Nat) (h : 1 ≤ round) :
    7 ≤ (generate_requirements round rnd).min_length := by
  simp only [generate_requirements, initial_min_length, BASE_MIN_LEN]
  split_ifs <;> omega

/-! ### Character classification -/

/-- On printable ASCII characters (codes 32–126) the code's three symbol
notions coincide: C `ispunct`, JS `isSymbol`, and the spec's
"none of the other classes nor whitespace". -/
theorem printable_symbol_classes (c : Nat) (h1 : 32 ≤ c) (h2 : c ≤ 126) :
    c_ispunct c = spec_isSymbol c ∧ isSymbol c = spec_isSymbol c := by
  constructor <;>
  · rw [Bool.eq_iff_iff]
    simp only [c_ispunct, spec_isSymbol, isSymbol, c_isupper, c_islower,
      c_isdigit, c_isspace, js_isWhitespace, Bool.not_eq_true',
      Bool.or_eq_false_iff, decide_eq_true_eq, decide_eq_false_iff_not]
    omega

/-- One printable character is tallied identically by the C loop, the JS
loop, and the spec's classification. -/
theorem tally_printable (c : Nat) (h1 : 32 ≤ c) (h2 : c ≤ 126) (acc : CharCounts) :
    c_tally acc c = spec_tally acc c ∧ js_tally acc c = spec_tally acc c := by
  unfold c_tally js_tally spec_tally
  rw [(printable_symbol_classes c h1 h2).1, (printable_symbol_classes c h1 h2).2]
  exact ⟨rfl, rfl⟩

/-- Folding the three tallies over an all-printable password from any
accumulator gives the same counts. -/
theorem foldl_tally_printable (password : List Nat)
    (hp : ∀ ch ∈ password, 32 ≤ ch ∧ ch ≤ 126) (acc : CharCounts) :
    password.foldl c_tally acc = password.foldl spec_tally acc ∧
    password.foldl js_tally acc = password.foldl spec_tally acc := by
  induction password generalizing acc with
  | nil => exact ⟨rfl, rfl⟩
  | cons ch t ih =>
    have hc := hp ch (by simp)
    have ht : ∀ x ∈ t, 32 ≤ x ∧ x ≤ 126 := fun x hx => hp x (by simp [hx])
    simp only [List.foldl_cons]
    constructor
    · rw [(tally_printable ch hc.1 hc.2 acc).1]
      exact (ih ht _).1
    · rw [(tally_printable ch hc.1 hc.2 acc).2]
      exact (ih ht _).2

/-- Claim C2, counterexample: the control character of code 1 is a symbol
under the spec's classification (it is none of uppercase, lowercase, digit,
whitespace), yet the C validator — whose symbol class is `ispunct`, i.e.
printable punctuation — does not count it, and so rejects the password
consisting of that single character for lack of symbols even though the
spec's classification finds one. -/
theorem classification_counterexample :
    spec_isSymbol 1 = true ∧
    (spec_counts [1]).symbol = 1 ∧
    validate_password [1] ⟨1, 0, 0, 0, 1, false, false, false, false, 0⟩ =
      .invalid .notEnoughSymbols := by decide

/-- Claim C2 as amended: the classification is mutually exclusive (no
character falls in two of the classes uppercase / lowercase / digit /
symbol, and a whitespace character falls in none of them), and on
passwords of printable ASCII characters — where C `ispunct` coincides with
the spec's symbol notion — the per-class counts and digit sum computed by
the C and JS counting loops are exactly those of the spec's
classification.  (Outside printable ASCII the C loop assigns
non-printable, non-whitespace characters to no class at all.) -/
theorem classification_amended :
    (∀ c : Nat,
      ¬(c_isupper c = true ∧ c_islower c = true) ∧
      ¬(c_isupper c = true ∧ c_isdigit c = true) ∧
      ¬(c_isupper c = true ∧ c_ispunct c = true) ∧
      ¬(c_islower c = true ∧ c_isdigit c = true) ∧
      ¬(c_islower c = true ∧ c_ispunct c = true) ∧
      ¬(c_isdigit c = true ∧ c_ispunct c = true) ∧
      (c_isspace c = true →
        c_isupper c = false ∧ c_islower c = false ∧ c_isdigit c = false ∧
        c_ispunct c = false)) ∧
    (∀ password : List Nat, (∀ ch ∈ password, 32 ≤ ch ∧ ch ≤ 126) →
      c_counts password = spec_counts password ∧
      js_counts password = spec_counts password) := by
  constructor
  · intro c
    simp only [c_isupper, c_islower, c_isdigit, c_ispunct, c_isspace,
      decide_eq_true_eq, decide_eq_false_iff_not]
    omega
  · intro password hp
    exact foldl_tally_printable password hp ⟨0, 0, 0, 0, 0⟩

/-- Witness for the amended C2: the counts of the printable password
`"Ab1! x"` (codes 65, 98, 49, 33, 32, 120). -/
theorem classification_amended_witness :
    (∀ ch ∈ [65, 98, 49, 33, 32, 120], 32 ≤ ch ∧ ch ≤ 126) ∧
    (c_counts [65, 98, 49, 33, 32, 120] = spec_counts [65, 98, 49, 33, 32, 120] ∧
     js_counts [65, 98, 49, 33, 32, 120] = spec_counts [65, 98, 49, 33, 32, 120]) :=
  ⟨by decide, classification_amended.2 [65, 98, 49, 33, 32, 120] (by decide)⟩

/-! ### The unsatisfiable digit-sum configuration (C1) -/

/-- Claim C1, counterexample: with `req_digit_sum` set, `min_digits = 0`
and `digit_sum_target = 5`, the empty password reaches the digit-sum check
and is rejected with the ordinary mismatch reason, not the distinct
unsatisfiable-configuration reason — the C code (pw.c lines 434–445) tests
the mismatch first and only then the `min_digits == 0` cross-check. -/
theorem unsat_digit_config_counterexample :
    validate_password [] ⟨0, 0, 0, 0, 0, false, false, false, true, 5⟩ =
      .invalid .digitSumMismatch ∧
    validate_password [] ⟨0, 0, 0, 0, 0, false, false, false, true, 5⟩ ≠
      .invalid .impossibleDigitSum := by decide

/-- Under the unsatisfiable configuration the digit-sum check always
reports something: the mismatch when the sum differs from the target, the
distinct configuration reason when it happens to match. -/
theorem digitSumCheck_unsat (password : List Nat) (reqs : PasswordRequirements)
    (hflag : reqs.req_digit_sum = true) (hmin : reqs.min_digits = 0)
    (htgt : reqs.digit_sum_target ≠ 0) :
    digitSumCheck password reqs =
      (if (c_counts password).digitSum != reqs.digit_sum_target then
        some .digitSumMismatch else some .impossibleDigitSum) := by
  by_cases hd : ((c_counts password).digitSum != reqs.digit_sum_target) = true
  · simp [digitSumCheck, hflag, hd]
  · simp only [Bool.not_eq_true] at hd
    simp [digitSumCheck, hflag, hmin, htgt, hd]

/-- Claim C1 as amended: under the unsatisfiable configuration
(`req_digit_sum` true, `min_digits = 0`, `digit_sum_target ≠ 0`) the
validator still fails safely — no password is ever accepted — but the
distinct unsatisfiable-configuration reason is reported only when the
password's digit sum happens to equal the target; whenever the digit sum
differs from the target the reported reason is never the distinct one
(the digit-sum check itself reports the ordinary mismatch). -/
theorem unsat_digit_config_rejects (password : List Nat)
    (reqs : PasswordRequirements) (hflag : reqs.req_digit_sum = true)
    (hmin : reqs.min_digits = 0) (htgt : reqs.digit_sum_target ≠ 0) :
    validate_password password reqs ≠ .valid ∧
    ((c_counts password).digitSum ≠ reqs.digit_sum_target →
      validate_password password reqs ≠ .invalid .impossibleDigitSum) := by
  have hck := digitSumCheck_unsat password reqs hflag hmin htgt
  constructor
  · rw [validate_password_eq_checks]
    intro hv
    have hall := (firstFailure_eq_valid_iff _).mp hv
    have hnone := hall (digitSumCheck password reqs) (by simp [orderedChecks])
    rw [hck] at hnone
    split_ifs at hnone <;> simp_all
  · intro hne
    rw [validate_password_eq_checks]
    intro hv
    have hmem := firstFailure_invalid_mem _ _ hv
    simp only [orderedChecks, List.mem_cons, List.not_mem_nil, or_false] at hmem
    rcases hmem with h|h|h|h|h|h|h|h|h
    · simp only [lengthCheck] at h; split_ifs at h <;> simp_all
    · simp only [upperCountCheck] at h; split_ifs at h <;> simp_all
    · simp only [lowerCountCheck] at h; split_ifs at h <;> simp_all
    · simp only [digitCountCheck] at h; split_ifs at h <;> simp_all
    · simp only [symbolCountCheck] at h; split_ifs at h <;> simp_all
    · simp only [startEndCheck] at h; split_ifs at h <;> simp_all
    · simp only [consecutiveCheck] at h; split_ifs at h <;> simp_all
    · simp only [palindromeCheck] at h; split_ifs at h <;> simp_all
    · rw [hck, if_pos (by simp [hne])] at h
      simp at h

/-- Witness for the amended C1: the configuration of the counterexample
rejects the single-character password `"7"` (digit sum 7 ≠ target 5) with
a reason other than the distinct one. -/
theorem unsat_digit_config_rejects_witness :
    validate_password [55] ⟨0, 0, 0, 0, 0, false, false, false, true, 5⟩ ≠
      .valid ∧
    ((c_counts [55]).digitSum ≠
        (⟨0, 0, 0, 0, 0, false, false, false, true, 5⟩ : PasswordRequirements).digit_sum_target →
      validate_password [55] ⟨0, 0, 0, 0, 0, false, false, false, true, 5⟩ ≠
        .invalid .impossibleDigitSum) :=
  unsat_digit_config_rejects [55] ⟨0, 0, 0, 0, 0, false, false, false, true, 5⟩
    rfl rfl (by decide)

/-! ### Check order (C4) -/

/-- Claim C4: both validators report exactly one failure reason per
invalid password, obtained by evaluating the §4.2 checks in the fixed
order — length, uppercase, lowercase, digits, symbols, start/end,
no-consecutive, palindrome, digit-sum — and stopping at the first failing
check; in particular a password violating both the minimum-length and
minimum-uppercase requirements reports "too short". -/
theorem check_order (password : List Nat) (reqs : PasswordRequirements) :
    validate_password password reqs = firstFailure (orderedChecks password reqs) ∧
    validatePassword password reqs = firstFailure (jsOrderedChecks password reqs) ∧
    (password.length < reqs.min_length →
      (c_counts password).upper < reqs.min_uppercase →
      validate_password password reqs = .invalid .tooShort) := by
  refine ⟨validate_password_eq_checks password reqs,
    validatePassword_eq_checks password reqs, ?_⟩
  intro h1 _
  simp only [validate_password]
  rw [if_pos h1]

/-- Witness for C4: a password too short and missing uppercase reports
"too short". -/
theorem check_order_witness :
    ([] : List Nat).length <
      (⟨1, 1, 0, 0, 0, false, false, false, false, 0⟩ : PasswordRequirements).min_length ∧
    (c_counts []).upper <
      (⟨1, 1, 0, 0, 0, false, false, false, false, 0⟩ : PasswordRequirements).min_uppercase ∧
    validate_password [] ⟨1, 1, 0, 0, 0, false, false, false, false, 0⟩ =
      .invalid .tooShort :=
  ⟨by decide, by decide,
    (check_order [] ⟨1, 1, 0, 0, 0, false, false, false, false, 0⟩).2.2
      (by decide) (by decide)⟩

/-! ### Generated requirements and the empty password (C10) -/

/-- Claim C10: every generated requirements record has `min_length ≥ 7`,
so validating the empty password against generated requirements fails the
length check, and the defensive empty-password branch of the start/end
check is unreachable: no password ever makes `validate_password` report
the distinct empty-password start/end reason under generated
requirements. -/
theorem generated_min_length_and_empty (round rnd : Nat) (h : 1 ≤ round) :
    7 ≤ (generate_requirements round rnd).min_length ∧
    validate_password [] (generate_requirements round rnd) = .invalid .tooShort ∧
    (∀ password : List Nat,
      validate_password password (generate_requirements round rnd) ≠
        .invalid .emptyStartEnd) := by
  have h7 := generate_min_length_ge round rnd h
  refine ⟨h7, ?_, ?_⟩
  · have h0 : ([] : List Nat).length < (generate_requirements round rnd).min_length := by
      simp only [List.length_nil]
      omega
    simp only [validate_password]
    rw [if_pos h0]
  · intro password hv
    rw [validate_password_eq_checks] at hv
    simp only [orderedChecks] at hv
    rcases firstFailure_invalid_cons _ _ _ hv with h1 | ⟨hlen, hrest⟩
    · simp only [lengthCheck] at h1
      split_ifs at h1 <;> simp_all
    · have hnlt : ¬password.length < (generate_requirements round rnd).min_length := by
        intro hcc
        simp only [lengthCheck, if_pos hcc] at hlen
        exact Option.noConfusion hlen
      have hmem := firstFailure_invalid_mem _ _ hrest
      simp only [List.mem_cons, List.not_mem_nil, or_false] at hmem
      rcases hmem with h1|h1|h1|h1|h1|h1|h1|h1
      · simp only [upperCountCheck] at h1; split_ifs at h1 <;> simp_all
      · simp only [lowerCountCheck] at h1; split_ifs at h1 <;> simp_all
      · simp only [digitCountCheck] at h1; split_ifs at h1 <;> simp_all
      · simp only [symbolCountCheck] at h1; split_ifs at h1 <;> simp_all
      · simp only [startEndCheck] at h1
        split_ifs at h1 with hc1 hc2 hc3
        · -- the empty-password branch: flag set and length zero
          simp only [Bool.and_eq_true, beq_iff_eq] at hc1
          omega
        all_goals simp at h1
      · simp only [consecutiveCheck] at h1; split_ifs at h1 <;> simp_all
      · simp only [palindromeCheck] at h1; split_ifs at h1 <;> simp_all
      · simp only [digitSumCheck] at h1; split_ifs at h1 <;> simp_all

/-- Witness for C10: round 1, random draw 0, and the password `"A"`. -/
theorem generated_min_length_and_empty_witness :
    1 ≤ 1 ∧
    (7 ≤ (generate_requirements 1 0).min_length ∧
     validate_password [] (generate_requirements 1 0) = .invalid .tooShort ∧
     validate_password [65] (generate_requirements 1 0) ≠ .invalid .emptyStartEnd) :=
  ⟨by decide, (generated_min_length_and_empty 1 0 (by decide)).1,
    (generated_min_length_and_empty 1 0 (by decide)).2.1,
    (generated_min_length_and_empty 1 0 (by decide)).2.2 [65]⟩

/-! ### Equivalence of the two validators (C8) -/

/-- The C index-based palindrome half-scan agrees with the JS
reverse-and-compare test on every list. -/
theorem c_isPalindrome_eq_reverse (p : List Nat) :
    c_isPalindrome p = (p == p.reverse) := by
  rw [Bool.eq_iff_iff]
  unfold c_isPalindrome
  simp only [List.all_eq_true, List.mem_range, beq_iff_eq]
  constructor
  · intro h
    apply List.ext_getElem (by simp)
    intro i h1 h2
    simp only [List.getElem_reverse]
    have hA : i < p.length := h1
    have hB : p.length - 1 - i < p.length := by omega
    by_cases hi : i < p.length / 2
    · have hh := h i hi
      rw [List.getD_eq_getElem p 0 hA, List.getD_eq_getElem p 0 hB] at hh
      exact hh
    · by_cases hmid : p.length - 1 - i = i
      · have hq : p[p.length - 1 - i]? = p[i]? := by rw [hmid]
        rw [List.getElem?_eq_getElem hB, List.getElem?_eq_getElem hA] at hq
        exact (Option.some.inj hq).symm
      · have hj : p.length - 1 - i < p.length / 2 := by omega
        have hh := h _ hj
        have hjj : p.length - 1 - (p.length - 1 - i) = i := by omega
        rw [List.getD_eq_getElem p 0 hB, hjj, List.getD_eq_getElem p 0 hA] at hh
        exact hh.symm
  · intro h i hi
    have h1 : i < p.length := by omega
    have h2 : p.length - 1 - i < p.length := by omega
    have hq := congrArg (fun l : List Nat => l[i]?) h
    simp only at hq
    rw [List.getElem?_reverse h1] at hq
    rw [List.getElem?_eq_getElem h1, List.getElem?_eq_getElem h2] at hq
    rw [List.getD_eq_getElem _ _ h1, List.getD_eq_getElem _ _ h2]
    exact Option.some.inj hq

/-- On an all-printable password the JS counting loop computes the same
tallies as the C one. -/
theorem js_counts_printable (password : List Nat)
    (hp : ∀ ch ∈ password, 32 ≤ ch ∧ ch ≤ 126) :
    js_counts password = c_counts password := by
  have h := foldl_tally_printable password hp ⟨0, 0, 0, 0, 0⟩
  simp only [js_counts, c_counts]
  exact h.2.trans h.1.symm

/-- On an all-printable password the JS start/end check agrees with the C
one (the only difference is the symbol class of the final character). -/
theorem js_startEndCheck_printable (password : List Nat)
    (reqs : PasswordRequirements)
    (hp : ∀ ch ∈ password, 32 ≤ ch ∧ ch ≤ 126) :
    js_startEndCheck password reqs = startEndCheck password reqs := by
  cases hflag : reqs.req_start_upper_end_symbol
  · simp [js_startEndCheck, startEndCheck, hflag]
  · by_cases hlen : password.length = 0
    · simp [js_startEndCheck, startEndCheck, hflag, hlen]
    · have hmem : password.getD (password.length - 1) 0 ∈ password := by
        rw [List.getD_eq_getElem _ _ (by omega)]
        exact List.getElem_mem _
      have hb := hp _ hmem
      have hsym : isSymbol (password.getD (password.length - 1) 0) =
          c_ispunct (password.getD (password.length - 1) 0) :=
        ((printable_symbol_classes _ hb.1 hb.2).2).trans
          ((printable_symbol_classes _ hb.1 hb.2).1).symm
      simp only [js_startEndCheck, startEndCheck, hsym]

/-- On an all-printable password the nine JS checks coincide element-wise
with the nine C checks. -/
theorem js_checks_printable (password : List Nat) (reqs : PasswordRequirements)
    (hp : ∀ ch ∈ password, 32 ≤ ch ∧ ch ≤ 126) :
    jsOrderedChecks password reqs = orderedChecks password reqs := by
  have hc := js_counts_printable password hp
  simp only [jsOrderedChecks, orderedChecks, js_upperCountCheck, upperCountCheck,
    js_lowerCountCheck, lowerCountCheck, js_digitCountCheck, digitCountCheck,
    js_symbolCountCheck, symbolCountCheck, js_digitSumCheck, digitSumCheck, hc,
    js_palindromeCheck, palindromeCheck, c_isPalindrome_eq_reverse,
    js_startEndCheck_printable password reqs hp]

/-- Claim C8, counterexample: the two validators are not equivalent.  On
the single-character password of code 1 (a control character) with
requirements asking for one symbol, the C validator counts no symbol
(`ispunct` is false on control characters) and rejects, while the JS
validator counts it as a symbol (`isSymbol` is true on any non-
alphanumeric non-whitespace character) and accepts. -/
theorem validators_differ_counterexample :
    validate_password [1] ⟨1, 0, 0, 0, 1, false, false, false, false, 0⟩ =
      .invalid .notEnoughSymbols ∧
    validatePassword [1] ⟨1, 0, 0, 0, 1, false, false, false, false, 0⟩ =
      .valid := by decide

/-- Claim C8 as amended: on every password consisting only of printable
ASCII characters (codes 32–126) — the only characters the terminal front
end will ever pass, since its input routine drops non-printable input —
the C `validate_password` and the JS `validatePassword` produce the same
verdict, accepting the same passwords and rejecting with the same failure
reason.  Outside printable ASCII they can differ (see the
counterexample). -/
theorem validators_agree_printable (password : List Nat)
    (reqs : PasswordRequirements)
    (hp : ∀ ch ∈ password, 32 ≤ ch ∧ ch ≤ 126) :
    validatePassword password reqs = validate_password password reqs := by
  rw [validatePassword_eq_checks, validate_password_eq_checks,
    js_checks_printable password reqs hp]

/-- Witness for the amended C8: both validators accept `"Ab1!"` under the
round-style requirements asking for one of each class. -/
theorem validators_agree_printable_witness :
    (∀ ch ∈ [65, 98, 49, 33], 32 ≤ ch ∧ ch ≤ 126) ∧
    validatePassword [65, 98, 49, 33] ⟨4, 1, 1, 1, 1, false, false, false, false, 0⟩ =
      validate_password [65, 98, 49, 33] ⟨4, 1, 1, 1, 1, false, false, false, false, 0⟩ :=
  ⟨by decide,
    validators_agree_printable [65, 98, 49, 33]
      ⟨4, 1, 1, 1, 1, false, false, false, false, 0⟩ (by decide)⟩

/-! ### Access safety of the validator (C9) -/

/-- If the fallible body never crashes on the scanned list, the early-exit
disjunction is the `some` of the boolean one. -/
theorem optionAny_eq (f : Nat → Option Bool) (g : Nat → Bool) (l : List Nat)
    (h : ∀ a ∈ l, f a = some (g a)) : optionAny f l = some (l.any g) := by
  induction l with
  | nil => rfl
  | cons x t ih =>
    have hx := h x (List.mem_cons_self x t)
    cases hgx : g x
    · rw [hgx] at hx
      simp only [optionAny, hx, List.any_cons, hgx, Bool.false_or]
      exact ih fun a ha => h a (List.mem_cons_of_mem _ ha)
    · rw [hgx] at hx
      simp only [optionAny, hx, List.any_cons, hgx, Bool.true_or]

/-- If the fallible body never crashes on the scanned list, the early-exit
conjunction is the `some` of the boolean one. -/
theorem optionAll_eq (f : Nat → Option Bool) (g : Nat → Bool) (l : List Nat)
    (h : ∀ a ∈ l, f a = some (g a)) : optionAll f l = some (l.all g) := by
  induction l with
  | nil => rfl
  | cons x t ih =>
    have hx := h x (List.mem_cons_self x t)
    cases hgx : g x
    · rw [hgx] at hx
      simp only [optionAll, hx, List.all_cons, hgx, Bool.false_and]
    · rw [hgx] at hx
      simp only [optionAll, hx, List.all_cons, hgx, Bool.true_and]
      exact ih fun a ha => h a (List.mem_cons_of_mem _ ha)

/-- The checked consecutive scan never crashes: every index it reads is in
bounds. -/
theorem checked_hasConsecutive_eq (p : List Nat) :
    checked_hasConsecutive p = some (hasConsecutive p) := by
  unfold checked_hasConsecutive hasConsecutive
  apply optionAny_eq
  intro i hi
  simp only [List.mem_range] at hi
  have h1 : i < p.length := by omega
  have h2 : i + 1 < p.length := by omega
  rw [List.getElem?_eq_getElem h1, List.getElem?_eq_getElem h2,
    List.getD_eq_getElem _ _ h1, List.getD_eq_getElem _ _ h2]

/-- The checked palindrome scan never crashes: every index it reads is in
bounds. -/
theorem checked_isPalindrome_eq (p : List Nat) :
    checked_isPalindrome p = some (c_isPalindrome p) := by
  unfold checked_isPalindrome c_isPalindrome
  apply optionAll_eq
  intro i hi
  simp only [List.mem_range] at hi
  have h1 : i < p.length := by omega
  have h2 : p.length - 1 - i < p.length := by omega
  rw [List.getElem?_eq_getElem h1, List.getElem?_eq_getElem h2,
    List.getD_eq_getElem _ _ h1, List.getD_eq_getElem _ _ h2]

/-- The checked start/end check never crashes: the reads of `password[0]`
and `password[len - 1]` sit behind the `len == 0` guard. -/
theorem checked_startEndCheck_eq (p : List Nat) (reqs : PasswordRequirements) :
    checked_startEndCheck p reqs = some (startEndCheck p reqs) := by
  cases hflag : reqs.req_start_upper_end_symbol
  · simp [checked_startEndCheck, startEndCheck, hflag]
  · by_cases hlen : p.length = 0
    · simp [checked_startEndCheck, startEndCheck, hflag, hlen]
    · have h0 : 0 < p.length := by omega
      have h1 : p.length - 1 < p.length := by omega
      have hlen2 : (p.length == 0) = false := by simp [hlen]
      simp only [checked_startEndCheck, startEndCheck, hflag, hlen2,
        Bool.not_true, Bool.true_and, Bool.and_false, Bool.false_eq_true,
        if_false, Bool.if_false_left]
      rw [List.getElem?_eq_getElem h0, List.getElem?_eq_getElem h1,
        List.getD_eq_getElem _ _ h0, List.getD_eq_getElem _ _ h1]

/-- The checked consecutive check never crashes. -/
theorem checked_consecutiveCheck_eq (p : List Nat) (reqs : PasswordRequirements) :
    checked_consecutiveCheck p reqs = some (consecutiveCheck p reqs) := by
  cases hflag : reqs.req_no_consecutive_chars
  · simp [checked_consecutiveCheck, consecutiveCheck, hflag]
  · simp only [checked_consecutiveCheck, consecutiveCheck, hflag,
      checked_hasConsecutive_eq, Bool.true_and]
    cases hb : hasConsecutive p <;> simp [hb]

/-- The checked palindrome check never crashes. -/
theorem checked_palindromeCheck_eq (p : List Nat) (reqs : PasswordRequirements) :
    checked_palindromeCheck p reqs = some (palindromeCheck p reqs) := by
  cases hflag : reqs.req_palindrome
  · simp [checked_palindromeCheck, palindromeCheck, hflag]
  · simp only [checked_palindromeCheck, palindromeCheck, hflag,
      checked_isPalindrome_eq, Bool.true_and]
    cases hb : c_isPalindrome p <;> simp [hb]

/-- Claim C9: the validator is total and crash-free.  With every indexed
memory read access-checked (an out-of-bounds read would surface as
`none`), validating any password — including the empty string and strings
with non-printable characters — against any requirements record returns
`some` of the ordinary verdict: no read is ever out of bounds and every
input is handled by the ordinary counting and comparison logic. -/
theorem validate_password_checked_total (password : List Nat)
    (reqs : PasswordRequirements) :
    validate_password_checked password reqs =
      some (validate_password password reqs) := by
  rw [validate_password_eq_checks]
  unfold validate_password_checked
  have h1 : checkedChecks password reqs = (orderedChecks password reqs).map some := by
    simp only [checkedChecks, orderedChecks, List.map_cons, List.map_nil,
      checked_startEndCheck_eq, checked_consecutiveCheck_eq,
      checked_palindromeCheck_eq]
  rw [h1, seqChecked_map_some]

end PwGame
